import Mathlib

/-!
# Verification of the scrape transform/persist pipeline

Shallow embedding of the repository's `transform` stage
(`src/transform/scrape.py`, `src/transform/transform.py`) together with the
keyed-table semantics of `src/database/database.py` (`INSERT OR REPLACE`
keyed on the primary key).

Modelling conventions:
* Python `None` is `Option.none`; raw CSV cell values are `Option String`
  (a `csv.DictReader` yields strings, or `None` for a short row).
* Python `int` is `Int`; Python `float` is modelled by `ℚ` (exact
  arithmetic stands in for IEEE doubles; all claims are about parsing
  structure and integer/decimal arithmetic, never about rounding).
* `int(s)` / `float(s)` literal parsing is modelled for the sign+digits
  (resp. sign, digits, decimal point, exponent) forms; Python's tolerance
  of surrounding whitespace, underscores in digit runs and `inf`/`nan`
  words is out of the modelled fragment.
* `datetime.fromisoformat(s).date()` is modelled for date-only ISO-8601
  strings `YYYY-MM-DD` (with calendar range checks, as in CPython);
  datetime suffixes are out of the modelled fragment.
* A SQLite table with primary key `k` is a function from key tuples to
  optional rows; `INSERT OR REPLACE` is pointwise replacement.  The ISO
  string `YYYY-MM-DD` stored in date-typed TEXT columns is in bijection
  with calendar dates, so those columns carry the `PyDate` value itself.
-/

namespace Scrapes

/-! ## Characters, digit runs, and Python literal parsing -/

def digitVal (c : Char) : Nat := c.toNat - '0'.toNat

/-- Numeric value of a run of decimal digits (most significant first). -/
def natOfDigits (cs : List Char) : Nat := cs.foldl (fun n c => 10 * n + digitVal c) 0

/-- Model of Python `int(s)` on string literals: optional sign, then a
nonempty run of decimal digits. -/
def pyInt? (s : String) : Option Int :=
  match s.data with
  | '-' :: r => if r ≠ [] ∧ r.all Char.isDigit then some (-(natOfDigits r : Int)) else none
  | '+' :: r => if r ≠ [] ∧ r.all Char.isDigit then some (natOfDigits r : Int) else none
  | cs => if cs ≠ [] ∧ cs.all Char.isDigit then some (natOfDigits cs : Int) else none

/-- Model of Python `float(s)` on decimal literals: optional sign,
digits with an optional decimal point (at least one digit overall), and
an optional exponent part. -/
def pyFloat? (s : String) : Option ℚ :=
  let (sgn, cs) : ℚ × List Char :=
    match s.data with
    | '-' :: r => (-1, r)
    | '+' :: r => (1, r)
    | r => (1, r)
  let ip := cs.takeWhile Char.isDigit
  let cs1 := cs.dropWhile Char.isDigit
  let (fp, cs2) : List Char × List Char :=
    match cs1 with
    | '.' :: r => (r.takeWhile Char.isDigit, r.dropWhile Char.isDigit)
    | _ => ([], cs1)
  if ip = [] ∧ fp = [] then none
  else
    let mant : ℚ := (natOfDigits ip : ℚ) + (natOfDigits fp : ℚ) / ((10 : ℚ) ^ fp.length)
    match cs2 with
    | [] => some (sgn * mant)
    | e :: r =>
      if e = 'e' ∨ e = 'E' then
        let (eneg, r') : Bool × List Char :=
          match r with
          | '-' :: r2 => (true, r2)
          | '+' :: r2 => (false, r2)
          | r2 => (false, r2)
        if r' ≠ [] ∧ r'.all Char.isDigit then
          let ex := natOfDigits r'
          some (sgn * mant * (if eneg then 1 / (10 : ℚ) ^ ex else (10 : ℚ) ^ ex))
        else none
      else none

/-! ## Calendar dates and `relativedelta` month subtraction -/

/-- A Python `datetime.date`. -/
structure PyDate where
  year : Nat
  month : Nat
  day : Nat
deriving DecidableEq, Repr

/-- Gregorian leap-year rule (as in Python's `calendar`/`datetime`). -/
def isLeap (y : Nat) : Bool := y % 4 = 0 ∧ (y % 100 ≠ 0 ∨ y % 400 = 0)

def daysInMonth (y m : Nat) : Nat :=
  if m = 2 then (if isLeap y then 29 else 28)
  else if m = 4 ∨ m = 6 ∨ m = 9 ∨ m = 11 then 30
  else 31

/-- A date is in the range `datetime.date` accepts. -/
def PyDate.valid (d : PyDate) : Prop :=
  1 ≤ d.year ∧ d.year ≤ 9999 ∧ 1 ≤ d.month ∧ d.month ≤ 12 ∧
    1 ≤ d.day ∧ d.day ≤ daysInMonth d.year d.month

instance (d : PyDate) : Decidable d.valid := by unfold PyDate.valid; infer_instance

/-- Linearized month index, used to separate a date from its
month-shifted variants. -/
def monthIndex (d : PyDate) : Nat := d.year * 12 + (d.month - 1)

/-- `d - relativedelta(months := k)`: shift the month index down by `k`
and clamp the day to the length of the target month.  `relativedelta`
builds the result with `date.replace`, which raises `ValueError` when
the shifted month falls before year 1 (`datetime.MINYEAR`) — e.g.
`date(1, 1, 15) - relativedelta(months=1)` — so the subtraction is
partial: `none` is that raised `ValueError`. -/
def subMonths (d : PyDate) (k : Nat) : Option PyDate :=
  let t := monthIndex d
  if t < 12 + k then none
  else
    let t' := t - k
    let y := t' / 12
    let m := t' % 12 + 1
    some { year := y, month := m, day := min d.day (daysInMonth y m) }

/-- Model of `datetime.fromisoformat(s).date()` for date-only ISO-8601
strings `YYYY-MM-DD` (range-checked as CPython does; datetime suffixes
are outside the modelled fragment). -/
def parseIsoDate (s : String) : Option PyDate :=
  match s.data with
  | [y1, y2, y3, y4, '-', m1, m2, '-', d1, d2] =>
    if ([y1, y2, y3, y4, m1, m2, d1, d2]).all Char.isDigit then
      let d : PyDate :=
        { year := natOfDigits [y1, y2, y3, y4]
          month := natOfDigits [m1, m2]
          day := natOfDigits [d1, d2] }
      if d.valid then some d else none
    else none
  | _ => none

/-! ## Splitting on a separator character (Python `str.split`, and the
dot-structure of the domain regex) -/

/-- Split a character list at every occurrence of `sep` (like Python's
`s.split(sep)` for a one-character separator: always at least one part). -/
def splitOnSep (sep : Char) : List Char → List (List Char)
  | [] => [[]]
  | c :: cs =>
    if c = sep then [] :: splitOnSep sep cs
    else
      match splitOnSep sep cs with
      | [] => [[c]]
      | p :: ps => (c :: p) :: ps

/-- Join parts with a separator (left inverse of `splitOnSep`). -/
def joinSep (sep : Char) : List (List Char) → List Char
  | [] => []
  | [p] => p
  | p :: ps => p ++ sep :: joinSep sep ps

/-- Does the string split on `:` into exactly three integer-parsing
segments?  (The success condition of `_to_sec` on a truthy string.) -/
def threeIntSegs (cs : List Char) : Bool :=
  match splitOnSep ':' cs with
  | [a, b, c] => (pyInt? ⟨a⟩).isSome && (pyInt? ⟨b⟩).isSome && (pyInt? ⟨c⟩).isSome
  | _ => false

/-! ## The domain regex `_VALID_DOMAIN`

Source pattern: `^[a-zA-Z0-9][a-zA-Z0-9-]{0,61}[a-zA-Z0-9](?:\.[a-zA-Z]{2,})+$`,
used via `re.match`.  Since no label class contains a dot, a match is
exactly: split the string on dots, the first part is a 2-63 character
alphanumeric/hyphen label starting and ending alphanumeric, and every
further part (at least one) consists of 2 or more ASCII letters.
Python's `$` also matches just before one final newline, so a single
trailing newline is tolerated. -/

def isAlnum (c : Char) : Bool := c.isAlpha || c.isDigit

def isLabelChar (c : Char) : Bool := isAlnum c || c = '-'

/-- `[a-zA-Z0-9][a-zA-Z0-9-]{0,61}[a-zA-Z0-9]` -/
def firstLabelOK (l : List Char) : Bool :=
  decide (2 ≤ l.length) && decide (l.length ≤ 63) && l.all isLabelChar &&
    l.head?.any isAlnum && l.getLast?.any isAlnum

/-- `[a-zA-Z]{2,}` -/
def tldLabelOK (t : List Char) : Bool := decide (2 ≤ t.length) && t.all Char.isAlpha

/-- Python's `$` anchor: drop one final newline if present. -/
def dropFinalNewline (cs : List Char) : List Char :=
  if cs.getLast? = some '\n' then cs.dropLast else cs

/-- `bool(_VALID_DOMAIN.match(s))`. -/
def domainMatch (s : String) : Bool :=
  match splitOnSep '.' (dropFinalNewline s.data) with
  | [] => false
  | l0 :: ts => firstLabelOK l0 && !ts.isEmpty && ts.all tldLabelOK

/-- The grammar the claim states: labels of alphanumerics/hyphens, at
least 2 labels, TLD (final label) of at least 2 letters. -/
def claimGrammar (s : String) : Bool :=
  let ps := splitOnSep '.' s.data
  decide (2 ≤ ps.length) && ps.all (fun p => !p.isEmpty && p.all isLabelChar) &&
    (match ps.getLast? with
     | some t => tldLabelOK t
     | none => false)

/-- The language of `_VALID_DOMAIN`, stated as a decomposition: after
the `$`-anchor newline allowance, the string is a first label of 2-63
alphanumeric/hyphen characters beginning and ending alphanumeric,
followed by one or more dot-prefixed labels of at least 2 ASCII
letters. -/
def domainLang (s : String) : Prop :=
  ∃ l0 ts, dropFinalNewline s.data = joinSep '.' (l0 :: ts) ∧
    firstLabelOK l0 = true ∧ ts ≠ [] ∧ ∀ t ∈ ts, tldLabelOK t = true

/-! ## Field coercions (`_to_sec`, `_to_float`)

A raised Python `ValueError` is the `.error ()` branch. -/

/-- `_to_sec`: seconds from an `hh:mm:ss` string.  A falsy (empty)
string yields `None`; a wrong segment count fails the 3-tuple unpack and
a non-integer segment fails `int`, both raising `ValueError`. -/
def to_sec (time_hms : String) : Except Unit (Option Int) :=
  if time_hms = "" then .ok none
  else
    match splitOnSep ':' time_hms.data with
    | [h, m, s] =>
      match pyInt? ⟨h⟩, pyInt? ⟨m⟩, pyInt? ⟨s⟩ with
      | some hv, some mv, some sv => .ok (some (hv * 3600 + mv * 60 + sv))
      | _, _, _ => .error ()
    | _ => .error ()

/-- `str.removesuffix("%")`: drop one trailing percent sign. -/
def stripPct (cs : List Char) : List Char :=
  if cs.getLast? = some '%' then cs.dropLast else cs

/-- `_to_float`: fraction from a percent string.  A falsy (empty) string
yields `None`; a non-numeric remainder makes `float` raise `ValueError`. -/
def to_float (percent_value : String) : Except Unit (Option ℚ) :=
  if percent_value = "" then .ok none
  else
    match pyFloat? ⟨stripPct percent_value.data⟩ with
    | some q => .ok (some (q / 100))
    | none => .error ()

/-! ## JSON values and `json.loads`

`json.loads` distinguishes `int` and `float` literals, and collapses
duplicate object keys Python-dict style (first position, last value).
The model covers the JSON core minus `\uXXXX` string escapes and the
non-standard `NaN`/`Infinity` literals Python additionally accepts. -/

inductive Json where
  | null
  | bool (b : Bool)
  | int (n : Int)
  | float (q : ℚ)
  | str (s : String)
  | arr (xs : List Json)
  | obj (kvs : List (String × Json))

/-- Python-dict insertion: replace in place if the key exists, else append. -/
def dictInsert {κ α : Type} [DecidableEq κ] (k : κ) (v : α) : List (κ × α) → List (κ × α)
  | [] => [(k, v)]
  | (k', v') :: t => if k' = k then (k, v) :: t else (k', v') :: dictInsert k v t

/-- Build a Python dict from pairs in textual order. -/
def buildDict {κ α : Type} [DecidableEq κ] (ps : List (κ × α)) : List (κ × α) :=
  ps.foldl (fun d p => dictInsert p.1 p.2 d) []

def isJsonWs (c : Char) : Bool := c = ' ' || c = '\t' || c = '\n' || c = '\r'

def skipWs (cs : List Char) : List Char := cs.dropWhile isJsonWs

/-- One escaped character after a backslash (the `\uXXXX` form is
outside the modelled fragment). -/
def escChar (e : Char) : Option Char :=
  if e = '"' ∨ e = '\\' ∨ e = '/' then some e
  else if e = 'n' then some '\n'
  else if e = 't' then some '\t'
  else if e = 'r' then some '\r'
  else if e = 'b' then some (Char.ofNat 0x08)
  else if e = 'f' then some (Char.ofNat 0x0c)
  else none

/-- Parse the body of a JSON string (the opening quote already consumed). -/
def pStrChars : List Char → Option (List Char × List Char)
  | [] => none
  | '"' :: rest => some ([], rest)
  | '\\' :: e :: rest =>
    match escChar e, pStrChars rest with
    | some c, some (s, r) => some (c :: s, r)
    | _, _ => none
  | '\\' :: [] => none
  | c :: rest =>
    match pStrChars rest with
    | some (s, r) => some (c :: s, r)
    | none => none

/-- Parse a JSON number token at the head of the input. -/
def pNum (cs : List Char) : Option (Json × List Char) :=
  let (neg, cs1) : Bool × List Char :=
    match cs with
    | '-' :: r => (true, r)
    | r => (false, r)
  let ipr : Option (List Char × List Char) :=
    match cs1 with
    | '0' :: r => some (['0'], r)
    | c :: r => if c.isDigit then some (c :: r.takeWhile Char.isDigit, r.dropWhile Char.isDigit) else none
    | [] => none
  match ipr with
  | none => none
  | some (ip, r1) =>
    let (fp, r2) : List Char × List Char :=
      match r1 with
      | '.' :: r => (r.takeWhile Char.isDigit, r.dropWhile Char.isDigit)
      | _ => ([], r1)
    let hadDot : Bool := match r1 with | '.' :: _ => true | _ => false
    if hadDot ∧ fp = [] then none
    else
      let epr : Option (Option Int × List Char) :=
        match r2 with
        | e :: r =>
          if e = 'e' ∨ e = 'E' then
            let (eneg, r') : Bool × List Char :=
              match r with
              | '-' :: r3 => (true, r3)
              | '+' :: r3 => (false, r3)
              | r3 => (false, r3)
            if (r'.takeWhile Char.isDigit) ≠ [] then
              let ds := r'.takeWhile Char.isDigit
              some (some (if eneg then -(natOfDigits ds : Int) else (natOfDigits ds : Int)),
                    r'.dropWhile Char.isDigit)
            else none
          else some (none, r2)
        | [] => some (none, r2)
      match epr with
      | none => none
      | some (expv, rest) =>
        let sgnQ : ℚ := if neg then -1 else 1
        match expv, hadDot with
        | none, false =>
          some (.int (if neg then -(natOfDigits ip : Int) else (natOfDigits ip : Int)), rest)
        | _, _ =>
          let mant : ℚ := (natOfDigits ip : ℚ) + (natOfDigits fp : ℚ) / ((10 : ℚ) ^ fp.length)
          let ex : Int := expv.getD 0
          let scaled : ℚ := if 0 ≤ ex then mant * (10 : ℚ) ^ ex.toNat else mant / (10 : ℚ) ^ (-ex).toNat
          some (.float (sgnQ * scaled), rest)

mutual

/-- Parse one JSON value (fuelled; the fuel bounds the nesting depth). -/
def pVal : Nat → List Char → Option (Json × List Char)
  | 0, _ => none
  | fuel + 1, cs =>
    match skipWs cs with
    | [] => none
    | 'n' :: r => if r.take 3 = ['u', 'l', 'l'] then some (.null, r.drop 3) else none
    | 't' :: r => if r.take 3 = ['r', 'u', 'e'] then some (.bool true, r.drop 3) else none
    | 'f' :: r => if r.take 4 = ['a', 'l', 's', 'e'] then some (.bool false, r.drop 4) else none
    | '"' :: r =>
      match pStrChars r with
      | some (sc, rest) => some (.str ⟨sc⟩, rest)
      | none => none
    | '[' :: r =>
      match skipWs r with
      | ']' :: rest => some (.arr [], rest)
      | r1 =>
        match pElems fuel r1 with
        | some (xs, rest) => some (.arr xs, rest)
        | none => none
    | '{' :: r =>
      match skipWs r with
      | '}' :: rest => some (.obj [], rest)
      | r1 =>
        match pMembers fuel r1 with
        | some (kvs, rest) => some (.obj (buildDict kvs), rest)
        | none => none
    | cs' => pNum cs'

/-- Parse the elements of a non-empty JSON array. -/
def pElems : Nat → List Char → Option (List Json × List Char)
  | 0, _ => none
  | fuel + 1, cs =>
    match pVal fuel cs with
    | none => none
    | some (v, rest) =>
      match skipWs rest with
      | ',' :: r2 =>
        match pElems fuel r2 with
        | some (xs, rest2) => some (v :: xs, rest2)
        | none => none
      | ']' :: r2 => some ([v], r2)
      | _ => none

/-- Parse the members of a non-empty JSON object, in textual order. -/
def pMembers : Nat → List Char → Option (List (String × Json) × List Char)
  | 0, _ => none
  | fuel + 1, cs =>
    match skipWs cs with
    | '"' :: r =>
      match pStrChars r with
      | none => none
      | some (kc, r1) =>
        match skipWs r1 with
        | ':' :: r2 =>
          match pVal fuel r2 with
          | none => none
          | some (v, r3) =>
            match skipWs r3 with
            | ',' :: r4 =>
              match pMembers fuel r4 with
              | some (kvs, r5) => some ((⟨kc⟩, v) :: kvs, r5)
              | none => none
            | '}' :: r4 => some ([(⟨kc⟩, v)], r4)
            | _ => none
        | _ => none
    | _ => none

end

/-- Model of `json.loads`: parse one value, require only whitespace after it. -/
def jsonLoads? (s : String) : Option Json :=
  match pVal (s.data.length + 1) s.data with
  | some (j, rest) => if skipWs rest = [] then some j else none
  | none => none

/-! ## The three structural schemas (`transform/schema.py`)

`jsonschema.validate` against the fixed drafts, as Boolean checks on the
parsed value.  `"type": "integer"` is the library's strict Python-`int`
check; `"type": "number"` accepts `int` and `float`. -/

def jsonIsNumber : Json → Bool
  | .int _ => true
  | .float _ => true
  | _ => false

def jsonNonNegInt : Json → Bool
  | .int n => decide (0 ≤ n)
  | _ => false

/-- The pattern `^\d{4}-\d{2}-\d{2}$` of `visits_history_schema`. -/
def isDateKeyStr (s : String) : Bool :=
  match s.data with
  | [a, b, c, d, '-', e, f, '-', g, h] => ([a, b, c, d, e, f, g, h]).all Char.isDigit
  | _ => false

/-- `visits_history_schema`: an object whose every key matches the date
pattern (`additionalProperties: false` forbids the rest) and whose every
value is a non-negative integer. -/
def visits_history_schemaOK : Json → Bool
  | .obj kvs => kvs.all fun kv => isDateKeyStr kv.1 && jsonNonNegInt kv.2
  | _ => false

/-- The pattern `^[A-Z]{2}$`. -/
def isAlpha2Code (s : String) : Bool :=
  match s.data with
  | [a, b] => a.isUpper && b.isUpper
  | _ => false

/-- The pattern `^[a-z\-]+$`. -/
def isUrlCode (s : String) : Bool :=
  s.data ≠ [] && s.data.all (fun c => c.isLower || c = '-')

def top_countries_itemOK : Json → Bool
  | .obj kvs =>
    kvs.all (fun kv =>
      kv.1 == "countryAlpha2Code" || kv.1 == "countryUrlCode" ||
        kv.1 == "visitsShare" || kv.1 == "visitsShareChange") &&
    (match kvs.lookup "countryAlpha2Code" with
     | some (.str s) => isAlpha2Code s
     | _ => false) &&
    (match kvs.lookup "countryUrlCode" with
     | some (.str s) => isUrlCode s
     | _ => false) &&
    (match kvs.lookup "visitsShare" with
     | some v => jsonIsNumber v
     | _ => false) &&
    (match kvs.lookup "visitsShareChange" with
     | some v => jsonIsNumber v
     | _ => false)
  | _ => false

/-- `top_countries_traffic_schema`: an array of country items. -/
def top_countries_schemaOK : Json → Bool
  | .arr xs => xs.all top_countries_itemOK
  | _ => false

/-- One `age_distribution_schema` item: keys among
`minAge`/`maxAge`/`value`, `minAge` a non-negative integer (required),
`value` a number (required), `maxAge` a non-negative integer when
present.  (The schema's `anyOf` over `maxAge` is a tautology.) -/
def age_itemOK : Json → Bool
  | .obj kvs =>
    kvs.all (fun kv => kv.1 == "minAge" || kv.1 == "maxAge" || kv.1 == "value") &&
    (match kvs.lookup "minAge" with
     | some v => jsonNonNegInt v
     | none => false) &&
    (match kvs.lookup "value" with
     | some v => jsonIsNumber v
     | none => false) &&
    (match kvs.lookup "maxAge" with
     | some v => jsonNonNegInt v
     | none => true)
  | _ => false

/-- `age_distribution_schema`: an array of bucket items. -/
def age_distribution_schemaOK : Json → Bool
  | .arr xs => xs.all age_itemOK
  | _ => false

/-! ## Projections out of the validated JSON sub-documents -/

def jsonNumVal : Json → Option ℚ
  | .int n => some (n : ℚ)
  | .float q => some q
  | _ => none

/-- `_age_dist_key`: label of an age bucket.  The source tests the bucket's
`maxAge` with a walrus assignment, so the `"min - max"` form is produced
only when `maxAge` is present AND truthy (nonzero). -/
def age_dist_key (minAge : Int) (maxAge : Option Int) : String :=
  match maxAge with
  | some m => if m ≠ 0 then toString minAge ++ " - " ++ toString m else toString minAge ++ "+"
  | none => toString minAge ++ "+"

/-- One bucket of the age-distribution comprehension:
`(_age_dist_key(a), a["value"])`. -/
def projBucket : Json → Option (String × ℚ)
  | .obj kvs =>
    match kvs.lookup "minAge", kvs.lookup "value" with
    | some (.int mn), some v =>
      (jsonNumVal v).map fun q =>
        (age_dist_key mn
          (match kvs.lookup "maxAge" with
           | some (.int mx) => some mx
           | _ => none), q)
    | _, _ => none
  | _ => none

/-- `{_age_dist_key(a): a["value"] for a in age_distribution}`. -/
def projAgeDist (xs : List Json) : List (String × ℚ) :=
  buildDict (xs.filterMap projBucket)

/-- The validated `visits_history` object as a date-string/count dict. -/
def projVisits (kvs : List (String × Json)) : List (String × Int) :=
  kvs.filterMap fun kv =>
    match kv.2 with
    | .int n => some (kv.1, n)
    | _ => none

/-- `[c["countryAlpha2Code"] for c in top_countries]`. -/
def projCountries (xs : List Json) : List String :=
  xs.filterMap fun j =>
    match j with
    | .obj kvs =>
      match kvs.lookup "countryAlpha2Code" with
      | some (.str s) => some s
      | _ => none
    | _ => none

/-! ## The validated record and its construction

`Scrape` is a `Validator` dataclass: `__post_init__` runs the
`_validate_<field>` method of every field in declaration order and any
raised `ValidationException` aborts construction, so `mkScrape` is the
corresponding `Except` chain in the same order.  The `db` handle field
is the store collaborator and carries no data.  Raw CSV cells are
`Option String` (`csv.DictReader` yields strings or `None`). -/

structure ValidationException where
  msg : String
deriving DecidableEq, Repr

/-- One raw CSV row, field names as in the `Scrape` dataclass. -/
structure RawScrape where
  domain : Option String
  snapshot_date : Option String
  global_rank : Option String
  total_visits : Option String
  bounce_rate : Option String
  pages_per_visit : Option String
  avg_visit_duration : Option String
  one_month_rank_change : Option String
  two_month_rank_change : Option String
  visits_history : Option String
  last_month_change_in_traffic : Option String
  top_countries : Option String
  age_distribution : Option String
deriving DecidableEq, Repr

/-- The validated, coerced record. -/
structure Scrape where
  domain : String
  snapshot_date : PyDate
  global_rank : Option Int
  total_visits : Option Int
  bounce_rate : Option ℚ
  pages_per_visit : Option ℚ
  avg_visit_duration : Option Int
  one_month_rank_change : Option Int
  two_month_rank_change : Option Int
  visits_history : List (String × Int)
  last_month_change_in_traffic : Option ℚ
  top_countries : List String
  age_distribution : List (String × ℚ)
deriving DecidableEq, Repr

/-- `Scrape._validate_domain`: `None` is not a `str`; otherwise the
string must match `_VALID_DOMAIN`. -/
def validate_domain : Option String → Except ValidationException String
  | none => .error ⟨"'domain' must be of type 'str', got 'NoneType' instead!"⟩
  | some s => if domainMatch s then .ok s else .error ⟨"Not a valid domain!"⟩

/-- `Scrape._validate_snapshot_date`: `datetime.fromisoformat` raises
`TypeError` on `None` and `ValueError` on a malformed string, both
turned into a `ValidationException`. -/
def validate_snapshot_date : Option String → Except ValidationException PyDate
  | none => .error ⟨"'snapshot_date' is not a valid date"⟩
  | some s =>
    match parseIsoDate s with
    | some d => .ok d
    | none => .error ⟨"'snapshot_date' is not a valid date"⟩

/-- `_validate(value, t := int, ...)`: absent stays absent, a string is
coerced with `int`, a `ValueError` becomes a `ValidationException`. -/
def validate_int (field_name : String) : Option String → Except ValidationException (Option Int)
  | none => .ok none
  | some s =>
    match pyInt? s with
    | some n => .ok (some n)
    | none => .error ⟨"'" ++ field_name ++ "' must be of type 'int'"⟩

/-- `_validate(value, t := float, ...)`. -/
def validate_float (field_name : String) : Option String → Except ValidationException (Option ℚ)
  | none => .ok none
  | some s =>
    match pyFloat? s with
    | some q => .ok (some q)
    | none => .error ⟨"'" ++ field_name ++ "' must be of type 'float'"⟩

/-- `Scrape._validate_bounce_rate`: `None` passes through, a string goes
through `_to_float`, whose `ValueError` becomes a `ValidationException`. -/
def validate_bounce_rate : Option String → Except ValidationException (Option ℚ)
  | none => .ok none
  | some s =>
    match to_float s with
    | .ok v => .ok v
    | .error _ => .error ⟨"'bounce_rate' is not a valid percentage"⟩

/-- `Scrape._validate_avg_visit_duration`: `None` passes through, a
string goes through `_to_sec`, whose `ValueError` becomes a
`ValidationException`. -/
def validate_avg_visit_duration : Option String → Except ValidationException (Option Int)
  | none => .ok none
  | some s =>
    match to_sec s with
    | .ok v => .ok v
    | .error _ => .error ⟨"'avg_visit_duration' is not a valid time string"⟩

/-- `Scrape._validate_visits_history`: `None` short-circuits to `{}`;
otherwise `json.loads` + schema validation + projection to a dict. -/
def validate_visits_history : Option String → Except ValidationException (List (String × Int))
  | none => .ok []
  | some s =>
    match jsonLoads? s with
    | some (.obj kvs) =>
      if visits_history_schemaOK (.obj kvs) then .ok (projVisits kvs)
      else .error ⟨"'visits_history' is not a valid json string"⟩
    | some _ => .error ⟨"'visits_history' is not a valid json string"⟩
    | none => .error ⟨"'visits_history' is not a valid json string"⟩

/-- `Scrape._validate_top_countries`: `None` short-circuits to `[]`;
otherwise `json.loads` + schema validation + country-code projection. -/
def validate_top_countries : Option String → Except ValidationException (List String)
  | none => .ok []
  | some s =>
    match jsonLoads? s with
    | some (.arr xs) =>
      if top_countries_schemaOK (.arr xs) then .ok (projCountries xs)
      else .error ⟨"'top_countries' is not a valid json string"⟩
    | some _ => .error ⟨"'top_countries' is not a valid json string"⟩
    | none => .error ⟨"'top_countries' is not a valid json string"⟩

/-- `Scrape._validate_age_distribution`: `None` short-circuits to `{}`;
otherwise `json.loads` + schema validation + bucket-label projection. -/
def validate_age_distribution : Option String → Except ValidationException (List (String × ℚ))
  | none => .ok []
  | some s =>
    match jsonLoads? s with
    | some (.arr xs) =>
      if age_distribution_schemaOK (.arr xs) then .ok (projAgeDist xs)
      else .error ⟨"'age_distribution' is not a valid json string"⟩
    | some _ => .error ⟨"'age_distribution' is not a valid json string"⟩
    | none => .error ⟨"'age_distribution' is not a valid json string"⟩

/-- Construction of a `Scrape` from a raw row: `Validator.__post_init__`
runs every field's `_validate_<name>` method in declaration order; the
first raised `ValidationException` aborts the whole record. -/
def mkScrape (raw : RawScrape) : Except ValidationException Scrape := do
  let domain ← validate_domain raw.domain
  let snapshot_date ← validate_snapshot_date raw.snapshot_date
  let global_rank ← validate_int "global_rank" raw.global_rank
  let total_visits ← validate_int "total_visits" raw.total_visits
  let bounce_rate ← validate_bounce_rate raw.bounce_rate
  let pages_per_visit ← validate_float "pages_per_visit" raw.pages_per_visit
  let avg_visit_duration ← validate_avg_visit_duration raw.avg_visit_duration
  let one_month_rank_change ← validate_int "one_month_rank_change" raw.one_month_rank_change
  let two_month_rank_change ← validate_int "two_month_rank_change" raw.two_month_rank_change
  let visits_history ← validate_visits_history raw.visits_history
  let last_month_change_in_traffic ← validate_float "last_month_change_in_traffic" raw.last_month_change_in_traffic
  let top_countries ← validate_top_countries raw.top_countries
  let age_distribution ← validate_age_distribution raw.age_distribution
  return { domain, snapshot_date, global_rank, total_visits, bounce_rate, pages_per_visit,
           avg_visit_duration, one_month_rank_change, two_month_rank_change, visits_history,
           last_month_change_in_traffic, top_countries, age_distribution }

/-! ## The store: keyed tables with `INSERT OR REPLACE`

`Database.insert_records` issues `INSERT OR REPLACE INTO t ... VALUES ...`
via `executemany`, i.e. sequential upserts keyed on the table's primary
key.  A table is a function from key tuples to optional rows. -/

/-- One `INSERT OR REPLACE` of row `r` into a table keyed by `key`. -/
def upsert {κ ρ : Type} [DecidableEq κ] (key : ρ → κ) (r : ρ) (t : κ → Option ρ) :
    κ → Option ρ :=
  fun k => if key r = k then some r else t k

/-- `executemany`: sequential upserts of a record batch. -/
def upsertAll {κ ρ : Type} [DecidableEq κ] (key : ρ → κ) (rs : List ρ) (t : κ → Option ρ) :
    κ → Option ρ :=
  rs.foldl (fun acc r => upsert key r acc) t

/-- The latest record of a batch whose key is `k` (later inserts win). -/
def lastMatch {κ ρ : Type} [DecidableEq κ] (key : ρ → κ) (rs : List ρ) (k : κ) : Option ρ :=
  match rs with
  | [] => none
  | r :: rest =>
    match lastMatch key rest k with
    | some v => some v
    | none => if key r = k then some r else none

/-- Row of `website_scrapes`: website, snapshot_date, global_rank,
total_visits, bounce_rate, pages_per_visit, avg_visit_duration,
last_month_change_in_traffic. -/
abbrev WSRow := String × PyDate × Option Int × Option Int × Option ℚ × Option ℚ × Option Int × Option ℚ

/-- Row of `website_global_rank`: website, snapshot_date, global_rank. -/
abbrev GRRow := String × PyDate × Int

/-- Row of `website_total_visits`: website, snapshot_date (a raw
`visits_history` date string), total_visits. -/
abbrev TVRow := String × String × Int

/-- Row of `top_countries`: website, snapshot_date, country. -/
abbrev TCRow := String × PyDate × String

/-- Row of `age_distribution`: website, snapshot_date, age_group_label, value. -/
abbrev ADRow := String × PyDate × String × ℚ

/-- Primary key `(website, snapshot_date)` of `website_scrapes`. -/
def keyWS (r : WSRow) : String × PyDate := (r.1, r.2.1)

/-- Primary key `(website, snapshot_date)` of `website_global_rank`. -/
def keyGR (r : GRRow) : String × PyDate := (r.1, r.2.1)

/-- Primary key `(website, snapshot_date)` of `website_total_visits`. -/
def keyTV (r : TVRow) : String × String := (r.1, r.2.1)

/-- Primary key `(website, snapshot_date, country)` of `top_countries`:
all of its columns. -/
def keyTC (r : TCRow) : TCRow := r

/-- Primary key `(website, snapshot_date, age_group_label)` of
`age_distribution`. -/
def keyAD (r : ADRow) : String × PyDate × String := (r.1, r.2.1, r.2.2.1)

/-- The five destination tables. -/
structure DB where
  website_scrapes : String × PyDate → Option WSRow
  website_global_rank : String × PyDate → Option GRRow
  website_total_visits : String × String → Option TVRow
  top_countries : TCRow → Option TCRow
  age_distribution : String × PyDate × String → Option ADRow

/-- A freshly created store (`create_table` is idempotent `CREATE TABLE
IF NOT EXISTS` and never drops rows, so table creation is the identity
on this state). -/
def emptyDB : DB :=
  { website_scrapes := fun _ => none
    website_global_rank := fun _ => none
    website_total_visits := fun _ => none
    top_countries := fun _ => none
    age_distribution := fun _ => none }

/-- Errors that are not `ValidationException` and therefore escape the
batch loader.  `typeError` is Python's `TypeError` from `None`
arithmetic in the derived-rank rows; `valueError` is the `ValueError`
raised by `date.replace` inside the `relativedelta` subtraction when
the shifted month falls before year 1. -/
inductive PyErr where
  | typeError
  | valueError
deriving DecidableEq, Repr

/-- The single row written to `website_scrapes`. -/
def wsRow (r : Scrape) : WSRow :=
  (r.domain, r.snapshot_date, r.global_rank, r.total_visits, r.bounce_rate,
    r.pages_per_visit, r.avg_visit_duration, r.last_month_change_in_traffic)

/-- The three rows of `_to_website_global_rank_table`: the snapshot row
plus the two reconstructed months `p1`, `p2` (note the asymmetric
signs: `+` for the one-month delta, `-` for the two-month delta). -/
def grRows (r : Scrape) (p1 p2 : PyDate) (g d1 d2 : Int) : List GRRow :=
  [(r.domain, r.snapshot_date, g),
   (r.domain, p1, g + d1),
   (r.domain, p2, g - d2)]

/-- `Scrape.persist`: fan one record out into the five tables, in source
order, with `_to_website_global_rank_table`'s failures in source order:
it first computes `snapshot_date - relativedelta(months=1)` and then
`- relativedelta(months=2)` (each can raise `ValueError` for snapshot
dates in January/February of year 1), and only then builds the records
list, whose `global_rank + one_month_rank_change` and
`global_rank - two_month_rank_change` raise `TypeError` when a value is
`None`.  Every such raise happens after the `website_scrapes` write,
whose committed partial effect the aborted batch never observes (the
loader re-raises and stops). -/
def persist (r : Scrape) (db : DB) : Except PyErr DB :=
  let db1 : DB := { db with website_scrapes := upsertAll keyWS [wsRow r] db.website_scrapes }
  match subMonths r.snapshot_date 1 with
  | none => .error .valueError
  | some prev1 =>
    match subMonths r.snapshot_date 2 with
    | none => .error .valueError
    | some prev2 =>
      match r.global_rank, r.one_month_rank_change with
      | some g, some d1 =>
        match r.two_month_rank_change with
        | some d2 =>
          let db2 : DB := { db1 with
            website_global_rank := upsertAll keyGR (grRows r prev1 prev2 g d1 d2)
              db1.website_global_rank }
          let db3 : DB := { db2 with
            website_total_visits := upsertAll keyTV
              (r.visits_history.map fun p => (r.domain, p.1, p.2)) db2.website_total_visits }
          let db4 : DB := { db3 with
            top_countries := upsertAll keyTC
              (r.top_countries.map fun c => (r.domain, r.snapshot_date, c)) db3.top_countries }
          let db5 : DB := { db4 with
            age_distribution := upsertAll keyAD
              (r.age_distribution.map fun p => (r.domain, r.snapshot_date, p.1, p.2))
              db4.age_distribution }
          .ok db5
        | none => .error .typeError
      | _, _ => .error .typeError

/-- `load_csv_to_db`'s loop body for one row: construct and persist; a
`ValidationException` is caught and the offending row is logged; any
other error propagates. -/
def processRow (db : DB) (log : List RawScrape) (raw : RawScrape) :
    Except PyErr (DB × List RawScrape) :=
  match mkScrape raw with
  | .error _ => .ok (db, log ++ [raw])
  | .ok r =>
    match persist r db with
    | .ok db' => .ok (db', log)
    | .error e => .error e

/-- `load_csv_to_db`: process the parsed CSV rows in order, accumulating
the log of rows whose validation failed. -/
def load_csv_to_db : List RawScrape → DB → List RawScrape → Except PyErr (DB × List RawScrape)
  | [], db, log => .ok (db, log)
  | raw :: rest, db, log =>
    match processRow db log raw with
    | .ok (db', log') => load_csv_to_db rest db' log'
    | .error e => .error e

/-- Whether a fallible computation succeeded. -/
def exceptOk {ε α : Type} : Except ε α → Bool
  | .ok _ => true
  | .error _ => false

/-! ## Concrete rows and records used to instantiate the theorems -/

/-- A raw CSV row with the spec's running example values (JSON-encoded
sub-documents absent, so they default to their empty values). -/
def row1 : RawScrape :=
  { domain := some "example.com"
    snapshot_date := some "2024-05-20"
    global_rank := some "100"
    total_visits := some "10000"
    bounce_rate := some "30%"
    pages_per_visit := some "2.5"
    avg_visit_duration := some "0:05:30"
    one_month_rank_change := some "5"
    two_month_rank_change := some "-3"
    visits_history := none
    last_month_change_in_traffic := some "10.5"
    top_countries := none
    age_distribution := none }

/-- `row1` with an invalid domain. -/
def rowBadDomain : RawScrape := { row1 with domain := some "not a domain" }

/-- A second valid raw row. -/
def row3 : RawScrape := { row1 with domain := some "other-site.org", global_rank := some "42" }

/-- A raw row that validates (rank fields absent are allowed) but whose
record then breaks the derived-rank arithmetic at persistence time. -/
def rowNoRanks : RawScrape :=
  { domain := some "example.com"
    snapshot_date := some "2024-05-20"
    global_rank := none
    total_visits := some "10000"
    bounce_rate := none
    pages_per_visit := none
    avg_visit_duration := some "0:05:30"
    one_month_rank_change := none
    two_month_rank_change := none
    visits_history := none
    last_month_change_in_traffic := none
    top_countries := none
    age_distribution := none }

/-- The validated record of the spec's running example. -/
def scrapeExample : Scrape :=
  { domain := "example.com"
    snapshot_date := ⟨2024, 5, 20⟩
    global_rank := some 100
    total_visits := some 10000
    bounce_rate := some (3 / 10)
    pages_per_visit := some (5 / 2)
    avg_visit_duration := some 330
    one_month_rank_change := some 5
    two_month_rank_change := some (-3)
    visits_history := [("2024-04-01", 5000), ("2024-04-02", 5500)]
    last_month_change_in_traffic := some (21 / 2)
    top_countries := ["US", "IN"]
    age_distribution := [("18 - 34", 1 / 4), ("55+", 1 / 2)] }

/-- The record `rowNoRanks` constructs: validation passes absent rank
fields through as absent. -/
def scrapeNoRanks : Scrape :=
  { domain := "example.com"
    snapshot_date := ⟨2024, 5, 20⟩
    global_rank := none
    total_visits := some 10000
    bounce_rate := none
    pages_per_visit := none
    avg_visit_duration := some 330
    one_month_rank_change := none
    two_month_rank_change := none
    visits_history := []
    last_month_change_in_traffic := none
    top_countries := []
    age_distribution := [] }

/-- `rowNoRanks` with a one-entry `visits_history` JSON document. -/
def rowVH : RawScrape :=
  { rowNoRanks with visits_history := some "\x7b\"2024-04-01\": 5000\x7d" }

/-- The record `rowVH` constructs. -/
def scrapeVH : Scrape := { scrapeNoRanks with visits_history := [("2024-04-01", 5000)] }

/-- A raw row dated in January of year 1 (parses: `MINYEAR` is 1) with
all three rank fields present. -/
def rowYear1 : RawScrape :=
  { rowNoRanks with
    snapshot_date := some "0001-01-15"
    global_rank := some "100"
    one_month_rank_change := some "5"
    two_month_rank_change := some "-3" }

/-- The record `rowYear1` constructs. -/
def scrapeYear1 : Scrape :=
  { scrapeNoRanks with
    snapshot_date := ⟨1, 1, 15⟩
    global_rank := some 100
    one_month_rank_change := some 5
    two_month_rank_change := some (-3) }

/-- A raw row dated in January of year 1 with absent rank fields. -/
def rowYear1NoRanks : RawScrape := { rowNoRanks with snapshot_date := some "0001-01-15" }

/-- The record `rowYear1NoRanks` constructs. -/
def scrapeYear1NoRanks : Scrape := { scrapeNoRanks with snapshot_date := ⟨1, 1, 15⟩ }

/-- `scrapeVH` moved to January of year 1, with present rank fields. -/
def scrapeVH1 : Scrape :=
  { scrapeVH with
    snapshot_date := ⟨1, 1, 15⟩
    global_rank := some 100
    one_month_rank_change := some 5
    two_month_rank_change := some (-3) }

/-! ## Spec-side view of age buckets (for the labelling claim) -/

/-- One age bucket as the schema guarantees it: a required non-negative
`minAge`, an optional `maxAge`, and a numeric `value`. -/
structure AgeBucket where
  minAge : Int
  maxAge : Option Int
  value : ℚ

/-- The JSON object a bucket denotes (keys in the upstream order). -/
def bucketJson (b : AgeBucket) : Json :=
  .obj (("minAge", Json.int b.minAge) ::
    (match b.maxAge with
     | some m => [("maxAge", Json.int m), ("value", Json.float b.value)]
     | none => [("value", Json.float b.value)]))

/-- The bucket label, described structurally: `"min - max"` exactly when
`maxAge` is present and nonzero (the source tests the bucket's `maxAge`
for truthiness), else `"min+"`. -/
def labelSpec (b : AgeBucket) : String :=
  match b.maxAge with
  | some m =>
    if m ≠ 0 then toString b.minAge ++ " - " ++ toString m else toString b.minAge ++ "+"
  | none => toString b.minAge ++ "+"

/-- A schema-valid bucket whose `maxAge` is present but zero. -/
def bucketZeroMax : Json := .obj [("minAge", .int 0), ("maxAge", .int 0), ("value", .int 1)]

/-- The age-distribution buckets of the spec's example. -/
def exampleBuckets : List AgeBucket := [⟨18, some 34, 1 / 4⟩, ⟨55, none, 1 / 2⟩]

/-! ## General lemmas about the store and the `Except` chain -/

theorem exceptBind_ok {ε α β : Type} (x : Except ε α) (f : α → Except ε β) (b : β) :
    x.bind f = .ok b ↔ ∃ a, x = .ok a ∧ f a = .ok b := by
  cases x <;> simp [Except.bind]

/-- A batch of upserts, read back at key `k`: the latest record with key
`k`, else whatever the table already held. -/
theorem upsertAll_apply {κ ρ : Type} [DecidableEq κ] (key : ρ → κ) (rs : List ρ)
    (t : κ → Option ρ) (k : κ) :
    upsertAll key rs t k =
      match lastMatch key rs k with
      | some v => some v
      | none => t k := by
  induction rs generalizing t with
  | nil => rfl
  | cons r rest ih =>
    show upsertAll key rest (upsert key r t) k = _
    rw [ih]
    simp only [lastMatch]
    cases lastMatch key rest k with
    | some v => rfl
    | none => by_cases h : key r = k <;> simp [h, upsert]

/-- Replaying the same batch of upserts is a no-op. -/
theorem upsertAll_idem {κ ρ : Type} [DecidableEq κ] (key : ρ → κ) (rs : List ρ)
    (t : κ → Option ρ) :
    upsertAll key rs (upsertAll key rs t) = upsertAll key rs t := by
  funext k
  rw [upsertAll_apply key rs (upsertAll key rs t) k, upsertAll_apply key rs t k]
  cases h : lastMatch key rs k <;> rfl

/-- C6: persisting the same validated record twice leaves every one of
the five destination tables with the same rows as persisting it once:
each insert replaces any existing row sharing the same primary key, so
re-ingestion creates no duplicate rows. -/
theorem C6_persist_twice_eq_once (r : Scrape) (db : DB) :
    (persist r db).bind (persist r) = persist r db := by
  cases hp1 : subMonths r.snapshot_date 1 with
  | none => simp [persist, hp1, Except.bind]
  | some p1 =>
    cases hp2 : subMonths r.snapshot_date 2 with
    | none => simp [persist, hp1, hp2, Except.bind]
    | some p2 =>
      cases hg : r.global_rank with
      | none => simp [persist, hp1, hp2, hg, Except.bind]
      | some g =>
        cases hd1 : r.one_month_rank_change with
        | none => simp [persist, hp1, hp2, hg, hd1, Except.bind]
        | some d1 =>
          cases hd2 : r.two_month_rank_change with
          | none => simp [persist, hp1, hp2, hg, hd1, hd2, Except.bind]
          | some d2 =>
            simp only [persist, hp1, hp2, hg, hd1, hd2, Except.bind]
            congr 1
            congr 1 <;> exact upsertAll_idem ..

/-- Inversion of record construction: a successfully constructed record
is exactly the tuple of its thirteen per-field validation results. -/
theorem mkScrape_ok_inv (raw : RawScrape) (r : Scrape) (h : mkScrape raw = .ok r) :
    validate_domain raw.domain = .ok r.domain ∧
    validate_snapshot_date raw.snapshot_date = .ok r.snapshot_date ∧
    validate_int "global_rank" raw.global_rank = .ok r.global_rank ∧
    validate_int "total_visits" raw.total_visits = .ok r.total_visits ∧
    validate_bounce_rate raw.bounce_rate = .ok r.bounce_rate ∧
    validate_float "pages_per_visit" raw.pages_per_visit = .ok r.pages_per_visit ∧
    validate_avg_visit_duration raw.avg_visit_duration = .ok r.avg_visit_duration ∧
    validate_int "one_month_rank_change" raw.one_month_rank_change = .ok r.one_month_rank_change ∧
    validate_int "two_month_rank_change" raw.two_month_rank_change = .ok r.two_month_rank_change ∧
    validate_visits_history raw.visits_history = .ok r.visits_history ∧
    validate_float "last_month_change_in_traffic" raw.last_month_change_in_traffic
      = .ok r.last_month_change_in_traffic ∧
    validate_top_countries raw.top_countries = .ok r.top_countries ∧
    validate_age_distribution raw.age_distribution = .ok r.age_distribution := by
  simp only [mkScrape, bind, exceptBind_ok, pure, Except.pure, Except.ok.injEq] at h
  obtain ⟨vdom, hdom, vsd, hsd, vgr, hgr, vtv, htv, vbr, hbr, vppv, hppv, vavd, havd,
    vm1, hm1, vm2, hm2, vvh, hvh, vlm, hlm, vtc, htc, vad, had, hrec⟩ := h
  subst hrec
  exact ⟨hdom, hsd, hgr, htv, hbr, hppv, havd, hm1, hm2, hvh, hlm, htc, had⟩

/-- C2: record construction is all-or-nothing.  If any one of the
thirteen per-field validation/coercion steps fails, construction of the
record raises a `ValidationException`, and the loader's step for that
row leaves every destination table unchanged: no partial record is ever
persisted. -/
theorem C2_construction_all_or_nothing (raw : RawScrape)
    (h : exceptOk (validate_domain raw.domain) = false ∨
         exceptOk (validate_snapshot_date raw.snapshot_date) = false ∨
         exceptOk (validate_int "global_rank" raw.global_rank) = false ∨
         exceptOk (validate_int "total_visits" raw.total_visits) = false ∨
         exceptOk (validate_bounce_rate raw.bounce_rate) = false ∨
         exceptOk (validate_float "pages_per_visit" raw.pages_per_visit) = false ∨
         exceptOk (validate_avg_visit_duration raw.avg_visit_duration) = false ∨
         exceptOk (validate_int "one_month_rank_change" raw.one_month_rank_change) = false ∨
         exceptOk (validate_int "two_month_rank_change" raw.two_month_rank_change) = false ∨
         exceptOk (validate_visits_history raw.visits_history) = false ∨
         exceptOk (validate_float "last_month_change_in_traffic" raw.last_month_change_in_traffic) = false ∨
         exceptOk (validate_top_countries raw.top_countries) = false ∨
         exceptOk (validate_age_distribution raw.age_distribution) = false) :
    (∃ e, mkScrape raw = .error e) ∧
      ∀ db log, processRow db log raw = .ok (db, log ++ [raw]) := by
  have hkill : ∃ e, mkScrape raw = .error e := by
    cases hm : mkScrape raw with
    | error e => exact ⟨e, rfl⟩
    | ok r =>
      exfalso
      obtain ⟨okdom, oksd, okgr, oktv, okbr, okppv, okavd, okm1, okm2, okvh, oklm, oktc, okad⟩ :=
        mkScrape_ok_inv raw r hm
      rcases h with h | h | h | h | h | h | h | h | h | h | h | h | h <;>
        simp_all [exceptOk]
  obtain ⟨e, he⟩ := hkill
  exact ⟨⟨e, he⟩, fun db log => by simp [processRow, he]⟩

/-- Witness for C2 at a concrete input: a row with domain
`"not a domain"` fails domain validation, construction raises, and the
loader's step for it persists nothing. -/
theorem C2_witness :
    (exceptOk (validate_domain rowBadDomain.domain) = false) ∧
      ((∃ e, mkScrape rowBadDomain = .error e) ∧
        ∀ db log, processRow db log rowBadDomain = .ok (db, log ++ [rowBadDomain])) :=
  ⟨by decide, C2_construction_all_or_nothing rowBadDomain (Or.inl (by decide))⟩

/-- Reading off a successful month subtraction: the month index drops
by `k`, and success requires staying at or after January of year 1. -/
theorem subMonths_monthIndex (d : PyDate) (k : Nat) (d' : PyDate)
    (h : subMonths d k = some d') :
    monthIndex d' = monthIndex d - k ∧ 12 + k ≤ monthIndex d := by
  simp only [subMonths] at h
  split at h
  · cases h
  · rename_i hge
    obtain rfl := Option.some.inj h
    refine ⟨?_, by omega⟩
    simp only [monthIndex]
    omega

/-- Month subtraction succeeds from any sufficiently late date. -/
theorem subMonths_isSome (d : PyDate) (k : Nat) (h : 12 + k ≤ monthIndex d) :
    ∃ d', subMonths d k = some d' := by
  simp only [subMonths]
  rw [if_neg (by omega)]
  exact ⟨_, rfl⟩

/-- The snapshot date and its two month-shifted variants are pairwise
distinct whenever both subtractions succeed. -/
theorem subMonths_pairwise_ne (d p1 p2 : PyDate) (h1 : subMonths d 1 = some p1)
    (h2 : subMonths d 2 = some p2) : p1 ≠ d ∧ p2 ≠ d ∧ p2 ≠ p1 := by
  obtain ⟨e1, hge1⟩ := subMonths_monthIndex d 1 p1 h1
  obtain ⟨e2, hge2⟩ := subMonths_monthIndex d 2 p2 h2
  refine ⟨fun h => ?_, fun h => ?_, fun h => ?_⟩
  · rw [h] at e1; omega
  · rw [h] at e2; omega
  · rw [h] at e2; omega

/-- Counterexample to C10 as stated: at snapshot date `0001-01-15`
(which validates: `datetime.MINYEAR` is 1) a successfully constructed
record with absent rank fields makes `persist` raise the `ValueError`
of the `relativedelta` date subtraction — evaluated before the rank
sums — not the claimed `TypeError`. -/
theorem C10_counterexample :
    mkScrape rowYear1NoRanks = .ok scrapeYear1NoRanks ∧
      scrapeYear1NoRanks.global_rank = none ∧
      persist scrapeYear1NoRanks emptyDB = .error .valueError ∧
      PyErr.valueError ≠ PyErr.typeError :=
  ⟨rfl, rfl, rfl, by decide⟩

/-- C10 (amended): for every successfully constructed record in which
`global_rank`, `one_month_rank_change` or `two_month_rank_change` is
absent AND whose snapshot date is March of year 1 or later (in January
and February of year 1 the date subtraction's `ValueError` preempts the
rank arithmetic), `persist` raises a `TypeError` from the derived-rank
arithmetic of the `website_global_rank` rows; that error is not a
`ValidationException`, so the batch loader does not catch it and the
whole batch aborts on such a row. -/
theorem C10_absent_rank_type_error (raw : RawScrape) (r : Scrape)
    (hc : mkScrape raw = .ok r)
    (hm : 14 ≤ monthIndex r.snapshot_date)
    (h : r.global_rank = none ∨ r.one_month_rank_change = none ∨
         r.two_month_rank_change = none) :
    (∀ db, persist r db = .error .typeError) ∧
      ∀ db log rest, load_csv_to_db (raw :: rest) db log = .error .typeError := by
  obtain ⟨p1, hp1⟩ := subMonths_isSome r.snapshot_date 1 (by omega)
  obtain ⟨p2, hp2⟩ := subMonths_isSome r.snapshot_date 2 (by omega)
  have hp : ∀ db, persist r db = .error .typeError := by
    intro db
    rcases h with h | h | h
    · cases h1 : r.one_month_rank_change <;> cases h2 : r.two_month_rank_change <;>
        simp [persist, hp1, hp2, h, h1, h2]
    · cases hg : r.global_rank <;> cases h2 : r.two_month_rank_change <;>
        simp [persist, hp1, hp2, h, hg, h2]
    · cases hg : r.global_rank <;> cases h1 : r.one_month_rank_change <;>
        simp [persist, hp1, hp2, h, hg, h1]
  refine ⟨hp, fun db log rest => ?_⟩
  simp [load_csv_to_db, processRow, hc, hp db]

/-- Witness for C10 at a concrete input: `rowNoRanks` (dated
`2024-05-20`) validates to `scrapeNoRanks` with absent ranks, and
persisting it raises the uncaught `TypeError`, aborting its batch. -/
theorem C10_witness :
    mkScrape rowNoRanks = .ok scrapeNoRanks ∧ scrapeNoRanks.global_rank = none ∧
      14 ≤ monthIndex scrapeNoRanks.snapshot_date ∧
      (∀ db, persist scrapeNoRanks db = .error .typeError) ∧
      ∀ db log rest, load_csv_to_db (rowNoRanks :: rest) db log = .error .typeError := by
  have h1 : mkScrape rowNoRanks = .ok scrapeNoRanks := by rfl
  have h2 := C10_absent_rank_type_error rowNoRanks scrapeNoRanks h1 (by decide)
    (Or.inl (by decide))
  exact ⟨h1, by decide, by decide, h2.1, h2.2⟩

/-- C3: the batch loader catches a `ValidationException` on any one row,
logs the row, and continues with the rest; the concrete 3-row batch
whose middle row has an invalid domain persists exactly what the 2-row
batch of its valid rows persists, logging the bad row; and any error
that is not a `ValidationException` (here the `TypeError` from
`persist`) propagates and aborts the whole batch. -/
theorem C3_batch_isolation :
    (∀ db log raw rest e, mkScrape raw = .error e →
        load_csv_to_db (raw :: rest) db log = load_csv_to_db rest db (log ++ [raw])) ∧
    ((load_csv_to_db [row1, rowBadDomain, row3] emptyDB []).map Prod.fst
        = (load_csv_to_db [row1, row3] emptyDB []).map Prod.fst ∧
      (load_csv_to_db [row1, rowBadDomain, row3] emptyDB []).map Prod.snd
        = .ok [rowBadDomain]) ∧
    (∀ db log raw rest r e, mkScrape raw = .ok r → persist r db = .error e →
        load_csv_to_db (raw :: rest) db log = .error e) := by
  refine ⟨?_, ⟨?_, ?_⟩, ?_⟩
  · intro db log raw rest e he
    simp [load_csv_to_db, processRow, he]
  · rfl
  · rfl
  · intro db log raw rest r e hm hp
    simp [load_csv_to_db, processRow, hm, hp]

/-- Witness for C3 at concrete inputs: the bad-domain row is caught and
logged (processing would continue), while the uncatchable `TypeError`
row aborts its batch. -/
theorem C3_witness :
    (mkScrape rowBadDomain = .error ⟨"Not a valid domain!"⟩ ∧
      load_csv_to_db [rowBadDomain] emptyDB []
        = load_csv_to_db [] emptyDB ([] ++ [rowBadDomain])) ∧
    (mkScrape rowNoRanks = .ok scrapeNoRanks ∧
      persist scrapeNoRanks emptyDB = .error .typeError ∧
      load_csv_to_db [rowNoRanks] emptyDB [] = .error .typeError) := by
  have h1 : mkScrape rowBadDomain = .error ⟨"Not a valid domain!"⟩ := by rfl
  have h2 : mkScrape rowNoRanks = .ok scrapeNoRanks := by rfl
  have h3 : persist scrapeNoRanks emptyDB = .error .typeError := rfl
  exact ⟨⟨h1, C3_batch_isolation.1 emptyDB [] rowBadDomain [] _ h1⟩,
    ⟨h2, h3, C3_batch_isolation.2.2 emptyDB [] rowNoRanks [] scrapeNoRanks .typeError h2 h3⟩⟩

/-- An empty batch position: no record of the batch carries key `k`. -/
theorem lastMatch_none_of {κ ρ : Type} [DecidableEq κ] (key : ρ → κ) (rs : List ρ) (k : κ)
    (h : ∀ r ∈ rs, key r ≠ k) : lastMatch key rs k = none := by
  induction rs with
  | nil => rfl
  | cons r rest ih =>
    simp only [lastMatch, ih fun x hx => h x (List.mem_cons_of_mem r hx)]
    simp [h r (List.mem_cons_self r rest)]

/-- Counterexample to C1 as stated universally: `rowYear1` (snapshot
date `0001-01-15`, all three rank fields present) passes validation,
yet `snapshot_date - relativedelta(months=1)` lands in year 0, which
`date.replace` rejects with `ValueError`; `persist` raises and writes no
`website_global_rank` rows at all. -/
theorem C1_counterexample :
    mkScrape rowYear1 = .ok scrapeYear1 ∧
      scrapeYear1.snapshot_date.valid ∧
      scrapeYear1.global_rank = some 100 ∧
      scrapeYear1.one_month_rank_change = some 5 ∧
      scrapeYear1.two_month_rank_change = some (-3) ∧
      subMonths scrapeYear1.snapshot_date 1 = none ∧
      persist scrapeYear1 emptyDB = .error .valueError :=
  ⟨rfl, by decide, rfl, rfl, rfl, rfl, rfl⟩

/-- C1 (amended): for a validated record whose `snapshot_date` is
March of year 1 or later (so both `relativedelta` subtractions
succeed), with `global_rank` `g`, `one_month_rank_change` `d1` and
`two_month_rank_change` `d2` present, `persist` writes exactly three
rows into `website_global_rank`: `(d, g)`, `(d − 1 month, g + d1)` and
`(d − 2 months, g − d2)` — nothing else. -/
theorem C1_derived_global_rank_rows (r : Scrape) (g d1 d2 : Int)
    (hv : r.snapshot_date.valid) (hm : 14 ≤ monthIndex r.snapshot_date)
    (hg : r.global_rank = some g) (h1 : r.one_month_rank_change = some d1)
    (h2 : r.two_month_rank_change = some d2) :
    ∃ p1 p2 db, subMonths r.snapshot_date 1 = some p1 ∧
      subMonths r.snapshot_date 2 = some p2 ∧
      persist r emptyDB = .ok db ∧
      db.website_global_rank (r.domain, r.snapshot_date)
          = some (r.domain, r.snapshot_date, g) ∧
      db.website_global_rank (r.domain, p1) = some (r.domain, p1, g + d1) ∧
      db.website_global_rank (r.domain, p2) = some (r.domain, p2, g - d2) ∧
      ∀ k, k ≠ (r.domain, r.snapshot_date) → k ≠ (r.domain, p1) →
        k ≠ (r.domain, p2) → db.website_global_rank k = none := by
  obtain ⟨p1, hs1⟩ := subMonths_isSome r.snapshot_date 1 (by omega)
  obtain ⟨p2, hs2⟩ := subMonths_isSome r.snapshot_date 2 (by omega)
  obtain ⟨hne1, hne2, hne12⟩ := subMonths_pairwise_ne r.snapshot_date p1 p2 hs1 hs2
  simp only [persist, hs1, hs2, hg, h1, h2]
  refine ⟨p1, p2, _, rfl, rfl, rfl, ?_, ?_, ?_, ?_⟩
  · show upsertAll keyGR (grRows r p1 p2 g d1 d2) emptyDB.website_global_rank _ = _
    rw [upsertAll_apply]
    simp [lastMatch, grRows, keyGR, emptyDB, hne1, hne2, Prod.ext_iff]
  · show upsertAll keyGR (grRows r p1 p2 g d1 d2) emptyDB.website_global_rank _ = _
    rw [upsertAll_apply]
    simp [lastMatch, grRows, keyGR, emptyDB, hne1, hne12, Prod.ext_iff]
  · show upsertAll keyGR (grRows r p1 p2 g d1 d2) emptyDB.website_global_rank _ = _
    rw [upsertAll_apply]
    simp [lastMatch, grRows, keyGR, emptyDB, hne2, hne12, Prod.ext_iff]
  · intro k hk0 hk1 hk2
    show upsertAll keyGR (grRows r p1 p2 g d1 d2) emptyDB.website_global_rank _ = _
    rw [upsertAll_apply]
    rw [lastMatch_none_of]
    · rfl
    · intro x hx
      simp only [grRows, List.mem_cons, List.not_mem_nil, or_false] at hx
      rcases hx with h | h | h <;> subst h
      · exact Ne.symm hk0
      · exact Ne.symm hk1
      · exact Ne.symm hk2

/-- Witness for C1 at the claim's example: `snapshot_date=2024-05-20`,
`global_rank=100`, `one_month_rank_change=5`, `two_month_rank_change=-3`
yield rows `(2024-05-20,100)`, `(2024-04-20,105)`, `(2024-03-20,103)`. -/
theorem C1_witness :
    scrapeExample.snapshot_date.valid ∧
    14 ≤ monthIndex scrapeExample.snapshot_date ∧
    scrapeExample.global_rank = some 100 ∧
    scrapeExample.one_month_rank_change = some 5 ∧
    scrapeExample.two_month_rank_change = some (-3) ∧
    subMonths scrapeExample.snapshot_date 1 = some ⟨2024, 4, 20⟩ ∧
    subMonths scrapeExample.snapshot_date 2 = some ⟨2024, 3, 20⟩ ∧
    ∃ db, persist scrapeExample emptyDB = .ok db ∧
      db.website_global_rank ("example.com", ⟨2024, 5, 20⟩)
          = some ("example.com", ⟨2024, 5, 20⟩, 100) ∧
      db.website_global_rank ("example.com", ⟨2024, 4, 20⟩)
          = some ("example.com", ⟨2024, 4, 20⟩, 105) ∧
      db.website_global_rank ("example.com", ⟨2024, 3, 20⟩)
          = some ("example.com", ⟨2024, 3, 20⟩, 103) := by
  obtain ⟨p1, p2, db, hs1, hs2, hp, ha, hb, hc, -⟩ :=
    C1_derived_global_rank_rows scrapeExample 100 5 (-3) (by decide) (by decide) rfl rfl rfl
  have e1 : subMonths scrapeExample.snapshot_date 1 = some ⟨2024, 4, 20⟩ := by decide
  have e2 : subMonths scrapeExample.snapshot_date 2 = some ⟨2024, 3, 20⟩ := by decide
  have hq1 : p1 = ⟨2024, 4, 20⟩ := Option.some.inj (hs1 ▸ e1)
  have hq2 : p2 = ⟨2024, 3, 20⟩ := Option.some.inj (hs2 ▸ e2)
  subst hq1
  subst hq2
  exact ⟨by decide, by decide, rfl, rfl, rfl, e1, e2, db, hp, ha, hb, hc⟩

/-! ## Reading back the fan-out tables -/

/-- `website_total_visits` rows generated from a visits-history dict:
read back, they are exactly the dict lookups. -/
theorem lastMatch_visits (dom : String) (hist : List (String × Int))
    (hnd : (hist.map Prod.fst).Nodup) (w dstr : String) :
    lastMatch keyTV (hist.map fun p => (dom, p.1, p.2)) (w, dstr) =
      if w = dom then (hist.lookup dstr).map (fun c => (w, dstr, c)) else none := by
  induction hist with
  | nil => simp [lastMatch]
  | cons p t ih =>
    obtain ⟨d0, c0⟩ := p
    rw [List.map_cons, List.nodup_cons] at hnd
    obtain ⟨hd0, hndt⟩ := hnd
    simp only [List.map_cons, lastMatch]
    rw [ih hndt]
    by_cases hw : w = dom
    · subst hw
      by_cases hd : dstr = d0
      · subst hd
        have hnone : t.lookup dstr = none := by
          rw [List.lookup_eq_none_iff]
          intro q hq
          simp only [bne_iff_ne, ne_eq]
          intro hqe
          exact hd0 (List.mem_map.mpr ⟨q, hq, hqe.symm⟩)
        simp [hnone, keyTV]
      · have hbeq : (dstr == d0) = false := by
          simp only [beq_eq_false_iff_ne, ne_eq]
          exact hd
        simp only [List.lookup_cons, hbeq]
        cases hl : t.lookup dstr with
        | some c => simp [hl]
        | none =>
          have hne : keyTV (w, d0, c0) ≠ (w, dstr) := by
            intro hh
            exact hd (congrArg Prod.snd hh).symm
          simp [hl, hne]
    · have hne : keyTV (dom, d0, c0) ≠ (w, dstr) := by
        intro hh
        exact hw (congrArg Prod.fst hh).symm
      simp [hw, hne]

/-- `top_countries` rows generated from the country-code list: read
back, they are exactly the codes' memberships. -/
theorem lastMatch_countries (dom : String) (date : PyDate) (cs : List String)
    (w : String) (d : PyDate) (c : String) :
    lastMatch keyTC (cs.map fun c0 => (dom, date, c0)) (w, d, c) =
      if w = dom ∧ d = date ∧ c ∈ cs then some (w, d, c) else none := by
  induction cs with
  | nil => simp [lastMatch]
  | cons c0 t ih =>
    simp only [List.map_cons, lastMatch]
    rw [ih]
    by_cases h : w = dom ∧ d = date ∧ c ∈ t
    · simp [h.1, h.2.1, h.2.2, List.mem_cons]
    · rw [if_neg h]
      by_cases h2 : ((dom, date, c0) : TCRow) = (w, d, c)
      · have hc : dom = w ∧ date = d ∧ c0 = c := by
          simpa [Prod.ext_iff] using h2
        obtain ⟨rfl, rfl, rfl⟩ := hc
        simp [keyTC, List.mem_cons]
      · have hcond : ¬(w = dom ∧ d = date ∧ c ∈ c0 :: t) := by
          intro hx
          obtain ⟨hwd, hdd, hc⟩ := hx
          rcases List.mem_cons.mp hc with hcc0 | hct
          · exact h2 (by rw [hwd, hdd, hcc0])
          · exact h ⟨hwd, hdd, hct⟩
        have hkey : keyTC (dom, date, c0) ≠ (w, d, c) := h2
        have hcond2 : ¬(w = dom ∧ d = date ∧ (c = c0 ∨ c ∈ t)) := by
          intro hx
          exact hcond ⟨hx.1, hx.2.1, List.mem_cons.mpr hx.2.2⟩
        simp [hkey, hcond2]

/-- `age_distribution` rows generated from the label/value dict: read
back, they are exactly the dict lookups. -/
theorem lastMatch_age (dom : String) (date : PyDate) (ad : List (String × ℚ))
    (hnd : (ad.map Prod.fst).Nodup) (w : String) (d : PyDate) (lbl : String) :
    lastMatch keyAD (ad.map fun p => (dom, date, p.1, p.2)) (w, d, lbl) =
      if w = dom ∧ d = date then (ad.lookup lbl).map (fun v => (w, d, lbl, v)) else none := by
  induction ad with
  | nil => simp [lastMatch]
  | cons p t ih =>
    obtain ⟨l0, v0⟩ := p
    rw [List.map_cons, List.nodup_cons] at hnd
    obtain ⟨hl0, hndt⟩ := hnd
    simp only [List.map_cons, lastMatch]
    rw [ih hndt]
    by_cases hw : w = dom ∧ d = date
    · obtain ⟨rfl, rfl⟩ := hw
      by_cases hd : lbl = l0
      · subst hd
        have hnone : t.lookup lbl = none := by
          rw [List.lookup_eq_none_iff]
          intro q hq
          simp only [bne_iff_ne, ne_eq]
          intro hqe
          exact hl0 (List.mem_map.mpr ⟨q, hq, hqe.symm⟩)
        simp [hnone, keyAD]
      · have hbeq : (lbl == l0) = false := by
          simp only [beq_eq_false_iff_ne, ne_eq]
          exact hd
        simp only [List.lookup_cons, hbeq]
        cases hl : t.lookup lbl with
        | some v => simp [hl]
        | none =>
          have hne : keyAD (w, d, l0, v0) ≠ (w, d, lbl) := by
            intro hh
            exact hd (congrArg (fun q : String × PyDate × String => q.2.2) hh).symm
          simp [hl, hne]
    · have hne : keyAD (dom, date, l0, v0) ≠ (w, d, lbl) := by
        intro hh
        have h1 := congrArg Prod.fst hh
        have h2 := congrArg (fun q : String × PyDate × String => q.2.1) hh
        exact hw ⟨h1.symm, h2.symm⟩
      simp [hw, hne]

/-- C7 (amended): for every validated record whose `snapshot_date` is
March of year 1 or later (else the `relativedelta` subtraction raises
`ValueError` first) and whose `global_rank`, `one_month_rank_change`
and `two_month_rank_change` are present (when one is absent, `persist`
instead raises `TypeError` — see C10), `persist` fans out exactly one
row into `website_scrapes`, one row per `(date, count)` pair of
`visits_history` into `website_total_visits`, one row per country code
into `top_countries`, and one row per bucket label into
`age_distribution`. -/
theorem C7_persist_fan_out (r : Scrape) (g d1 d2 : Int)
    (hm : 14 ≤ monthIndex r.snapshot_date)
    (hg : r.global_rank = some g) (h1 : r.one_month_rank_change = some d1)
    (h2 : r.two_month_rank_change = some d2)
    (hvn : (r.visits_history.map Prod.fst).Nodup)
    (han : (r.age_distribution.map Prod.fst).Nodup) :
    ∃ db, persist r emptyDB = .ok db ∧
      (∀ k, db.website_scrapes k =
          if k = (r.domain, r.snapshot_date) then some (wsRow r) else none) ∧
      (∀ w dstr, db.website_total_visits (w, dstr) =
          if w = r.domain then (r.visits_history.lookup dstr).map (fun c => (w, dstr, c))
          else none) ∧
      (∀ w d c, db.top_countries (w, d, c) =
          if w = r.domain ∧ d = r.snapshot_date ∧ c ∈ r.top_countries then some (w, d, c)
          else none) ∧
      (∀ w d lbl, db.age_distribution (w, d, lbl) =
          if w = r.domain ∧ d = r.snapshot_date
          then (r.age_distribution.lookup lbl).map (fun v => (w, d, lbl, v)) else none) := by
  obtain ⟨p1, hs1⟩ := subMonths_isSome r.snapshot_date 1 (by omega)
  obtain ⟨p2, hs2⟩ := subMonths_isSome r.snapshot_date 2 (by omega)
  simp only [persist, hs1, hs2, hg, h1, h2]
  refine ⟨_, rfl, ?_, ?_, ?_, ?_⟩
  · intro k
    show upsertAll keyWS [wsRow r] emptyDB.website_scrapes k = _
    rw [upsertAll_apply]
    by_cases hk : k = (r.domain, r.snapshot_date)
    · subst hk
      simp [lastMatch, keyWS, wsRow]
    · have hne : keyWS (wsRow r) ≠ k := fun hh => hk hh.symm
      simp [lastMatch, hk, hne, emptyDB]
  · intro w dstr
    show upsertAll keyTV (r.visits_history.map fun p => (r.domain, p.1, p.2))
        emptyDB.website_total_visits (w, dstr) = _
    rw [upsertAll_apply, lastMatch_visits r.domain r.visits_history hvn w dstr]
    by_cases hw : w = r.domain
    · cases hl : r.visits_history.lookup dstr <;> simp [hl, hw, emptyDB]
    · simp [hw, emptyDB]
  · intro w d c
    show upsertAll keyTC (r.top_countries.map fun c0 => (r.domain, r.snapshot_date, c0))
        emptyDB.top_countries (w, d, c) = _
    rw [upsertAll_apply, lastMatch_countries]
    by_cases hc : w = r.domain ∧ d = r.snapshot_date ∧ c ∈ r.top_countries
    · simp [hc]
    · simp [hc, emptyDB]
  · intro w d lbl
    show upsertAll keyAD (r.age_distribution.map fun p => (r.domain, r.snapshot_date, p.1, p.2))
        emptyDB.age_distribution (w, d, lbl) = _
    rw [upsertAll_apply, lastMatch_age r.domain r.snapshot_date r.age_distribution han w d lbl]
    by_cases hw : w = r.domain ∧ d = r.snapshot_date
    · cases hl : r.age_distribution.lookup lbl <;> simp [hl, hw, emptyDB]
    · simp [hw, emptyDB]

/-- Counterexample to C7 as stated: `scrapeVH` is a validated record
(constructed by `mkScrape` from `rowVH`) carrying one
`(date, count)` pair in `visits_history`, yet `persist` raises
`TypeError` — its rank fields are absent — so no row reaches
`website_total_visits`. Even with all rank fields present the fan-out
can fail: `scrapeVH1` is dated `0001-01-15`, so the `relativedelta`
subtraction raises `ValueError` before the derived rows are built. -/
theorem C7_counterexample :
    mkScrape rowVH = .ok scrapeVH ∧
      scrapeVH.visits_history = [("2024-04-01", 5000)] ∧
      persist scrapeVH emptyDB = .error .typeError ∧
      (⟨1, 1, 15⟩ : PyDate).valid ∧
      scrapeVH1.global_rank = some 100 ∧
      persist scrapeVH1 emptyDB = .error .valueError :=
  ⟨rfl, rfl, rfl, by decide, rfl, rfl⟩

/-- Witness for C7 at the spec's example record, including the
round-trip rows of `visits_history = {"2024-04-01": 5000,
"2024-04-02": 5500}`. -/
theorem C7_witness :
    scrapeExample.global_rank = some 100 ∧
    14 ≤ monthIndex scrapeExample.snapshot_date ∧
    (scrapeExample.visits_history.map Prod.fst).Nodup ∧
    (scrapeExample.age_distribution.map Prod.fst).Nodup ∧
    ∃ db, persist scrapeExample emptyDB = .ok db ∧
      db.website_scrapes ("example.com", ⟨2024, 5, 20⟩) = some (wsRow scrapeExample) ∧
      db.website_total_visits ("example.com", "2024-04-01")
        = some ("example.com", "2024-04-01", 5000) ∧
      db.website_total_visits ("example.com", "2024-04-02")
        = some ("example.com", "2024-04-02", 5500) ∧
      db.website_total_visits ("example.com", "2024-04-03") = none ∧
      db.top_countries ("example.com", ⟨2024, 5, 20⟩, "US")
        = some ("example.com", ⟨2024, 5, 20⟩, "US") ∧
      db.age_distribution ("example.com", ⟨2024, 5, 20⟩, "55+")
        = some ("example.com", ⟨2024, 5, 20⟩, "55+", 1 / 2) := by
  obtain ⟨db, hp, hs, hv, hc, ha⟩ :=
    C7_persist_fan_out scrapeExample 100 5 (-3) (by decide) rfl rfl rfl (by decide) (by decide)
  refine ⟨rfl, by decide, by decide, by decide, db, hp, ?_, ?_, ?_, ?_, ?_, ?_⟩
  · have h := hs ("example.com", ⟨2024, 5, 20⟩)
    rwa [if_pos (show (("example.com" : String), (⟨2024, 5, 20⟩ : PyDate))
        = (scrapeExample.domain, scrapeExample.snapshot_date) from rfl)] at h
  · have h := hv "example.com" "2024-04-01"
    rw [if_pos (show ("example.com" : String) = scrapeExample.domain from rfl)] at h
    exact h.trans rfl
  · have h := hv "example.com" "2024-04-02"
    rw [if_pos (show ("example.com" : String) = scrapeExample.domain from rfl)] at h
    exact h.trans rfl
  · have h := hv "example.com" "2024-04-03"
    rw [if_pos (show ("example.com" : String) = scrapeExample.domain from rfl)] at h
    exact h.trans rfl
  · have h := hc "example.com" ⟨2024, 5, 20⟩ "US"
    rw [if_pos (show ("example.com" : String) = scrapeExample.domain
        ∧ (⟨2024, 5, 20⟩ : PyDate) = scrapeExample.snapshot_date
        ∧ "US" ∈ scrapeExample.top_countries from ⟨rfl, rfl, by decide⟩)] at h
    exact h
  · have h := ha "example.com" ⟨2024, 5, 20⟩ "55+"
    rw [if_pos (show ("example.com" : String) = scrapeExample.domain
        ∧ (⟨2024, 5, 20⟩ : PyDate) = scrapeExample.snapshot_date from ⟨rfl, rfl⟩)] at h
    exact h.trans rfl

/-! ## The age-bucket labelling rule -/

/-- Projecting the JSON encoding of one bucket recovers the structural
labelling rule. -/
theorem projBucket_bucketJson (b : AgeBucket) :
    projBucket (bucketJson b) = some (labelSpec b, b.value) := by
  obtain ⟨mn, mx, v⟩ := b
  cases mx <;> rfl

/-- The JSON encoding of a well-bounded bucket passes the item schema. -/
theorem age_itemOK_bucketJson (b : AgeBucket) (h1 : 0 ≤ b.minAge)
    (h2 : ∀ m ∈ b.maxAge, 0 ≤ m) : age_itemOK (bucketJson b) = true := by
  obtain ⟨mn, mx, v⟩ := b
  cases mx with
  | none =>
    simp only [bucketJson, age_itemOK, Bool.and_eq_true, and_assoc]
    exact ⟨rfl, decide_eq_true h1, rfl, rfl⟩
  | some m =>
    simp only [bucketJson, age_itemOK, Bool.and_eq_true, and_assoc]
    exact ⟨rfl, decide_eq_true h1, rfl, decide_eq_true (h2 m rfl)⟩

/-- Bucket-wise form of the age-distribution comprehension. -/
theorem filterMap_projBucket (bs : List AgeBucket) :
    List.filterMap (projBucket ∘ bucketJson) bs = bs.map fun b => (labelSpec b, b.value) := by
  induction bs with
  | nil => rfl
  | cons b t ih =>
    simp only [List.filterMap_cons, Function.comp_apply, projBucket_bucketJson,
      List.map_cons, ih]

/-- Counterexample to C4 as stated: the bucket
`{"minAge": 0, "maxAge": 0, "value": 1}` passes the age-distribution
schema and has both bounds present, yet its projected label is `"0+"`,
not `"0 - 0"`: the source tests `maxAge` for truthiness, and `0` is
falsy. -/
theorem C4_counterexample :
    age_distribution_schemaOK (.arr [bucketZeroMax]) = true ∧
      (projAgeDist [bucketZeroMax]).map Prod.fst = ["0+"] ∧
      ("0+" : String) ≠ "0 - 0" :=
  ⟨rfl, rfl, by decide⟩

/-- C4 (amended): for every age-distribution array that passes the
age-distribution schema, the projected mapping labels each bucket
`"<min> - <max>"` whenever `maxAge` is present and nonzero, and
`"<min>+"` when `maxAge` is absent or zero; in particular the encoded
bucket list passes the schema and projects to exactly those
label/value pairs. -/
theorem C4_age_bucket_labels (bs : List AgeBucket)
    (hmin : ∀ b ∈ bs, 0 ≤ b.minAge)
    (hmax : ∀ b ∈ bs, ∀ m ∈ b.maxAge, 0 ≤ m) :
    age_distribution_schemaOK (.arr (bs.map bucketJson)) = true ∧
      projAgeDist (bs.map bucketJson)
        = buildDict (bs.map fun b => (labelSpec b, b.value)) := by
  constructor
  · simp only [age_distribution_schemaOK, List.all_eq_true]
    intro j hj
    obtain ⟨b, hb, rfl⟩ := List.mem_map.mp hj
    exact age_itemOK_bucketJson b (hmin b hb) (hmax b hb)
  · unfold projAgeDist
    congr 1
    rw [List.filterMap_map, filterMap_projBucket]

/-- Witness for C4 at the spec's example: buckets
`[{minAge:18, maxAge:34, value:1/4}, {minAge:55, value:1/2}]` pass the
schema and project to the labels `"18 - 34"` and `"55+"`. -/
theorem C4_witness :
    (∀ b ∈ exampleBuckets, 0 ≤ b.minAge) ∧
      (∀ b ∈ exampleBuckets, ∀ m ∈ b.maxAge, 0 ≤ m) ∧
      labelSpec ⟨18, some 34, 1 / 4⟩ = "18 - 34" ∧
      labelSpec ⟨55, none, 1 / 2⟩ = "55+" ∧
      (age_distribution_schemaOK (.arr (exampleBuckets.map bucketJson)) = true ∧
        projAgeDist (exampleBuckets.map bucketJson)
          = buildDict (exampleBuckets.map fun b => (labelSpec b, b.value))) := by
  have hmin : ∀ b ∈ exampleBuckets, 0 ≤ b.minAge := by
    intro b hb
    rcases List.mem_cons.mp hb with rfl | hb
    · decide
    · rcases List.mem_cons.mp hb with rfl | hb
      · decide
      · cases hb
  have hmax : ∀ b ∈ exampleBuckets, ∀ m ∈ b.maxAge, 0 ≤ m := by
    intro b hb m hm
    rcases List.mem_cons.mp hb with rfl | hb
    · cases hm; decide
    · rcases List.mem_cons.mp hb with rfl | hb
      · cases hm
      · cases hb
  exact ⟨hmin, hmax, rfl, rfl, C4_age_bucket_labels exampleBuckets hmin hmax⟩

/-! ## Percentage coercion (`_to_float`) -/

/-- Counterexample to C8 as stated: the empty string's remainder after
stripping a trailing `%` is empty, hence not numeric, yet `_to_float`
returns absent instead of failing — the empty string is falsy and is
short-circuited before parsing. -/
theorem C8_counterexample :
    pyFloat? ⟨stripPct "".data⟩ = none ∧ to_float "" = .ok none :=
  ⟨rfl, rfl⟩

/-- C8 (amended): for every string `"p%"` where `p` parses as a number,
the percentage coercion returns `p/100`; for every NONEMPTY string whose
remainder after stripping the trailing `"%"` is not numeric it fails
with a coercion error; the empty string — being falsy — and absent
(`None`) input pass through as absent. -/
theorem C8_percentage_coercion :
    (∀ s q, pyFloat? s = some q → to_float (s ++ "%") = .ok (some (q / 100))) ∧
    (∀ s, s ≠ "" → pyFloat? ⟨stripPct s.data⟩ = none → to_float s = .error ()) ∧
    to_float "" = .ok none ∧
    validate_bounce_rate none = .ok none := by
  refine ⟨?_, ?_, rfl, rfl⟩
  · intro s q hq
    have hne : s ++ "%" ≠ "" := by
      intro hh
      have hd := congrArg String.data hh
      simp [String.data_append] at hd
    have hstrip : stripPct (s ++ "%").data = s.data := by
      simp only [stripPct, String.data_append]
      rw [if_pos]
      · exact List.dropLast_concat ..
      · rw [List.getLast?_concat]
    have hmk : (⟨stripPct (s ++ "%").data⟩ : String) = s := by
      rw [hstrip]
    unfold to_float
    rw [if_neg hne, hmk, hq]
  · intro s hne hparse
    unfold to_float
    rw [if_neg hne, hparse]

/-- Witness for C8 at concrete inputs: `"30%"` coerces to `30/100` and
`"abc"` fails with a coercion error. -/
theorem C8_witness :
    pyFloat? "30" = some 30 ∧ to_float ("30" ++ "%") = .ok (some (30 / 100)) ∧
      ("abc" : String) ≠ "" ∧ pyFloat? ⟨stripPct "abc".data⟩ = none ∧
      to_float "abc" = .error () := by
  have h30 : pyFloat? "30" = some 30 := by
    show some ((1 : ℚ) * (((30 : ℕ) : ℚ) + ((0 : ℕ) : ℚ) / (10 : ℚ) ^ (0 : ℕ))) = some 30
    norm_num
  refine ⟨h30, C8_percentage_coercion.1 "30" 30 h30, by decide, rfl, ?_⟩
  exact C8_percentage_coercion.2.1 "abc" (by decide) rfl

/-! ## Splitting on a separator: inversion lemmas -/

theorem splitOnSep_ne_nil (sep : Char) (cs : List Char) : splitOnSep sep cs ≠ [] := by
  induction cs with
  | nil => simp [splitOnSep]
  | cons c cs ih =>
    by_cases h : c = sep <;> simp [splitOnSep, h]
    cases hs : splitOnSep sep cs <;> simp

/-- A separator-free list splits into itself. -/
theorem splitOnSep_of_not_mem (sep : Char) (cs : List Char) (h : sep ∉ cs) :
    splitOnSep sep cs = [cs] := by
  induction cs with
  | nil => rfl
  | cons c r ih =>
    rw [List.mem_cons, not_or] at h
    have hc : ¬c = sep := fun hh => h.1 hh.symm
    simp only [splitOnSep, if_neg hc, ih h.2]

/-- Splitting consumes a leading separator-free part. -/
theorem splitOnSep_append_cons (sep : Char) (p rest : List Char) (h : sep ∉ p) :
    splitOnSep sep (p ++ sep :: rest) = p :: splitOnSep sep rest := by
  induction p with
  | nil => simp [splitOnSep]
  | cons c r ih =>
    rw [List.mem_cons, not_or] at h
    have hc : ¬c = sep := fun hh => h.1 hh.symm
    rw [List.cons_append]
    simp only [splitOnSep, if_neg hc, ih h.2]

/-- Splitting a separator-joined list of separator-free parts recovers
exactly the parts. -/
theorem splitOnSep_joinSep (sep : Char) (ps : List (List Char)) (hne : ps ≠ [])
    (h : ∀ p ∈ ps, sep ∉ p) :
    splitOnSep sep (joinSep sep ps) = ps := by
  induction ps with
  | nil => exact absurd rfl hne
  | cons p ps ih =>
    cases ps with
    | nil => exact splitOnSep_of_not_mem sep p (h p (List.mem_cons_self ..))
    | cons q qs =>
      show splitOnSep sep (p ++ sep :: joinSep sep (q :: qs)) = _
      rw [splitOnSep_append_cons sep p _ (h p (List.mem_cons_self ..))]
      rw [ih (by simp) fun x hx => h x (List.mem_cons_of_mem p hx)]

/-- Joining the split parts recovers the original list. -/
theorem joinSep_splitOnSep (sep : Char) (cs : List Char) :
    joinSep sep (splitOnSep sep cs) = cs := by
  induction cs with
  | nil => rfl
  | cons c r ih =>
    by_cases hc : c = sep
    · subst hc
      simp only [splitOnSep, if_pos rfl]
      cases hq : splitOnSep c r with
      | nil => exact absurd hq (splitOnSep_ne_nil c r)
      | cons p ps =>
        rw [hq] at ih
        show [] ++ c :: joinSep c (p :: ps) = _
        rw [List.nil_append, ih]
    · simp only [splitOnSep, if_neg hc]
      cases hq : splitOnSep sep r with
      | nil => exact absurd hq (splitOnSep_ne_nil sep r)
      | cons p ps =>
        rw [hq] at ih
        cases ps with
        | nil =>
          show (c :: p : List Char) = _
          have : joinSep sep [p] = p := rfl
          rw [this] at ih
          rw [ih]
        | cons q qs =>
          show (c :: p) ++ sep :: joinSep sep (q :: qs) = _
          have : joinSep sep (p :: q :: qs) = p ++ sep :: joinSep sep (q :: qs) := rfl
          rw [this] at ih
          rw [List.cons_append, ih]

/-- No part of a split contains the separator. -/
theorem not_mem_splitOnSep (sep : Char) (cs : List Char) :
    ∀ p ∈ splitOnSep sep cs, sep ∉ p := by
  induction cs with
  | nil =>
    intro p hp
    simp only [splitOnSep, List.mem_singleton] at hp
    subst hp
    exact List.not_mem_nil sep
  | cons c r ih =>
    intro p hp
    by_cases hc : c = sep
    · subst hc
      simp only [splitOnSep, if_pos rfl] at hp
      cases hp with
      | head => exact List.not_mem_nil _
      | tail _ h0 => exact ih p h0
    · simp only [splitOnSep, if_neg hc] at hp
      cases hq : splitOnSep sep r with
      | nil => exact absurd hq (splitOnSep_ne_nil sep r)
      | cons q qs =>
        rw [hq] at hp
        rcases List.mem_cons.mp hp with rfl | hp
        · intro hmem
          rcases List.mem_cons.mp hmem with hh | hh
          · exact hc hh.symm
          · exact ih q (hq ▸ List.mem_cons_self ..) hh
        · exact ih p (hq ▸ List.mem_cons_of_mem q hp)

/-- A string accepted by `int()` contains no colon. -/
theorem pyInt?_no_colon (s : String) (n : Int) (h : pyInt? s = some n) : ':' ∉ s.data := by
  unfold pyInt? at h
  split at h
  · rename_i r heq
    split at h
    · rename_i hcond
      rw [heq]
      intro hmem
      rcases List.mem_cons.mp hmem with h' | h'
      · exact absurd h' (by decide)
      · have := List.all_eq_true.mp hcond.2 ':' h'
        exact absurd this (by decide)
    · exact absurd h (by simp)
  · rename_i r heq
    split at h
    · rename_i hcond
      rw [heq]
      intro hmem
      rcases List.mem_cons.mp hmem with h' | h'
      · exact absurd h' (by decide)
      · have := List.all_eq_true.mp hcond.2 ':' h'
        exact absurd this (by decide)
    · exact absurd h (by simp)
  · rename_i heq1 heq2
    split at h
    · rename_i hcond
      intro hmem
      have := List.all_eq_true.mp hcond.2 ':' hmem
      exact absurd this (by decide)
    · exact absurd h (by simp)

/-! ## Duration coercion (`_to_sec`) -/

/-- Counterexample to C9 as stated: the empty string has one
colon-separated segment, not three, yet `_to_sec` returns absent
instead of failing — the empty string is falsy and is short-circuited
before the split. -/
theorem C9_counterexample :
    (splitOnSep ':' "".data).length ≠ 3 ∧ to_sec "" = .ok none :=
  ⟨by decide, rfl⟩

/-- C9 (amended): for every duration string `"H:MM:SS"` with three
integer components `h`, `m`, `s` (any integer components accepted), the
coercion returns `h*3600 + m*60 + s`; every NONEMPTY string with a
wrong number of colon-separated segments or a non-integer segment fails
with a coercion error; the empty string — being falsy — passes through
as absent. -/
theorem C9_duration_coercion :
    (∀ hs ms ss (h m s : Int), pyInt? hs = some h → pyInt? ms = some m → pyInt? ss = some s →
        to_sec (hs ++ ":" ++ ms ++ ":" ++ ss) = .ok (some (h * 3600 + m * 60 + s))) ∧
    (∀ str, str ≠ "" → threeIntSegs str.data = false → to_sec str = .error ()) ∧
    to_sec "" = .ok none := by
  refine ⟨?_, ?_, rfl⟩
  · intro hs ms ss h m s hh hm hsv
    have hne : hs ++ ":" ++ ms ++ ":" ++ ss ≠ "" := by
      intro hx
      have hd := congrArg String.data hx
      simp [String.data_append] at hd
    have hdata : (hs ++ ":" ++ ms ++ ":" ++ ss).data
        = joinSep ':' [hs.data, ms.data, ss.data] := by
      show _ = hs.data ++ ':' :: (ms.data ++ ':' :: ss.data)
      simp [String.data_append]
    have hsplit : splitOnSep ':' ((hs ++ ":" ++ ms ++ ":" ++ ss)).data
        = [hs.data, ms.data, ss.data] := by
      rw [hdata]
      refine splitOnSep_joinSep ':' _ (by simp) ?_
      intro p hp
      simp only [List.mem_cons, List.not_mem_nil, or_false] at hp
      rcases hp with rfl | rfl | rfl
      · exact pyInt?_no_colon hs h hh
      · exact pyInt?_no_colon ms m hm
      · exact pyInt?_no_colon ss s hsv
    have hh' : pyInt? ⟨hs.data⟩ = some h := hh
    have hm' : pyInt? ⟨ms.data⟩ = some m := hm
    have hsv' : pyInt? ⟨ss.data⟩ = some s := hsv
    unfold to_sec
    rw [if_neg hne, hsplit]
    show (match pyInt? ⟨hs.data⟩, pyInt? ⟨ms.data⟩, pyInt? ⟨ss.data⟩ with
          | some hv, some mv, some sv => Except.ok (some (hv * 3600 + mv * 60 + sv))
          | _, _, _ => Except.error ()) = _
    rw [hh', hm', hsv']
  · intro str hne hseg
    unfold to_sec
    rw [if_neg hne]
    unfold threeIntSegs at hseg
    split
    · rename_i a b c heq
      rw [heq] at hseg
      cases ha : pyInt? ⟨a⟩ <;> cases hb : pyInt? ⟨b⟩ <;> cases hc : pyInt? ⟨c⟩ <;>
        simp only [ha, hb, hc] <;> simp [ha, hb, hc] at hseg
    · rfl

/-- Witness for C9 at concrete inputs: `"0:05:30"` coerces to 330
seconds and `"1:2"` (two segments) fails with a coercion error. -/
theorem C9_witness :
    pyInt? "0" = some 0 ∧ pyInt? "05" = some 5 ∧ pyInt? "30" = some 30 ∧
      to_sec ("0" ++ ":" ++ "05" ++ ":" ++ "30") = .ok (some 330) ∧
      ("1:2" : String) ≠ "" ∧ threeIntSegs "1:2".data = false ∧
      to_sec "1:2" = .error () := by
  have h1 : pyInt? "0" = some 0 := by decide
  have h2 : pyInt? "05" = some 5 := by decide
  have h3 : pyInt? "30" = some 30 := by decide
  have ht := C9_duration_coercion.1 "0" "05" "30" 0 5 30 h1 h2 h3
  refine ⟨h1, h2, h3, ?_, by decide, by decide, ?_⟩
  · exact ht.trans (by rw [show (0 * 3600 + 5 * 60 + 30 : ℤ) = 330 from by norm_num])
  · exact C9_duration_coercion.2.1 "1:2" (by decide) (by decide)

/-! ## The domain grammar -/

theorem not_dot_of_firstLabelOK (l : List Char) (h : firstLabelOK l = true) : '.' ∉ l := by
  intro hmem
  unfold firstLabelOK at h
  simp only [Bool.and_eq_true] at h
  have := List.all_eq_true.mp h.1.1.2 '.' hmem
  exact absurd this (by decide)

theorem not_dot_of_tldLabelOK (t : List Char) (h : tldLabelOK t = true) : '.' ∉ t := by
  intro hmem
  unfold tldLabelOK at h
  simp only [Bool.and_eq_true] at h
  have := List.all_eq_true.mp h.2 '.' hmem
  exact absurd this (by decide)

/-- Counterexample to C5 as stated: `"a.com"` matches the claim's
grammar (two labels of alphanumerics, TLD of 3 letters) but the regex
requires the first label to have at least 2 characters, so domain
validation rejects it. -/
theorem C5_counterexample :
    claimGrammar "a.com" = true ∧ domainMatch "a.com" = false ∧
      validate_domain (some "a.com") = .error ⟨"Not a valid domain!"⟩ :=
  ⟨by decide, by decide, rfl⟩

/-- C5 (amended): domain validation accepts exactly the strings of the
source regex's language: an optional single trailing newline (tolerated
by Python's `$` anchor), a first label of 2-63 alphanumeric/hyphen
characters beginning and ending alphanumeric, then at least one
dot-separated label of at least 2 ASCII letters.  `"example.com"` is
accepted; `"not a domain"`, `"-bad.com"` and `"a.com"` are rejected. -/
theorem C5_domain_grammar (s : String) :
    validate_domain (some s) = .ok s ↔ domainLang s := by
  have hiff : domainMatch s = true ↔ domainLang s := by
    constructor
    · intro h
      unfold domainMatch at h
      cases hq : splitOnSep '.' (dropFinalNewline s.data) with
      | nil => exact absurd hq (splitOnSep_ne_nil '.' (dropFinalNewline s.data))
      | cons l0 ts =>
        rw [hq] at h
        simp only [Bool.and_eq_true, Bool.not_eq_eq_eq_not, Bool.not_true,
          List.all_eq_true] at h
        refine ⟨l0, ts, ?_, h.1.1, ?_, h.2⟩
        · rw [← joinSep_splitOnSep '.' (dropFinalNewline s.data), hq]
        · intro hts
          rw [hts] at h
          simp [List.isEmpty] at h
    · intro ⟨l0, ts, hdec, hfirst, hne, htld⟩
      unfold domainMatch
      rw [hdec, splitOnSep_joinSep '.' (l0 :: ts) (by simp) ?dots]
      case dots =>
        intro p hp
        rcases List.mem_cons.mp hp with rfl | hp
        · exact not_dot_of_firstLabelOK p hfirst
        · exact not_dot_of_tldLabelOK p (htld p hp)
      simp only [hfirst, Bool.true_and, Bool.and_eq_true, Bool.not_eq_eq_eq_not,
        Bool.not_true, List.all_eq_true]
      exact ⟨by simpa using hne, htld⟩
  have hval : validate_domain (some s)
      = (if domainMatch s = true then Except.ok s else .error ⟨"Not a valid domain!"⟩) := rfl
  constructor
  · intro h
    apply hiff.mp
    rw [hval] at h
    by_cases hm : domainMatch s = true
    · exact hm
    · rw [if_neg hm] at h
      cases h
  · intro h
    rw [hval, if_pos (hiff.mpr h)]

/-- Witness for C5: `"example.com"` is accepted, and the theorem's
grammar decomposition holds of it. -/
theorem C5_witness : domainLang "example.com" :=
  (C5_domain_grammar "example.com").mp rfl

end Scrapes
